import Mathlib

/-
Shallow embedding of the NetBox integration layer in backend/app/netbox.py.

Network effects are modelled by oracle functions passed as arguments: an
oracle maps a request (a filter, a query, an item) to the outcome the remote
side would produce, namely `Except PyErr v` — the decoded value, or the
Python exception the call would raise.  Response unwrapping chains such as
`(unwrap_result(res) or {}).get("results") or []` are collapsed into the
oracle returning the final normalised list directly.
-/

namespace Netbox

/-- Python exception values raised or propagated by the module:
`http st d` models `fastapi.HTTPException(status_code = st, detail = d)`;
`transport m` models transport-level `httpx` exceptions (connect errors,
timeouts) which are NOT `HTTPException` instances; `keyError k` models a
`KeyError` raised by a mandatory dictionary subscript `x[k]`. -/
inductive PyErr where
  | http (status : Nat) (detail : String)
  | transport (msg : String)
  | keyError (key : String)
deriving DecidableEq

/-- Whether a `PyErr` is a `fastapi.HTTPException` (matched by the
`except HTTPException` handlers in the source). -/
def PyErr.isHTTPException : PyErr → Bool
  | .http _ _ => true
  | _ => false

/-- Python truthiness of an optional string: `None` and the empty string are
falsy, every other string is truthy. -/
def strTruthy : Option String → Bool
  | none => false
  | some s => !s.isEmpty

/-- Python truthiness of an optional integer: `None` and `0` are falsy. -/
def natTruthy : Option Nat → Bool
  | none => false
  | some n => n != 0

/-- Python `a or b` on optional strings: `a` when truthy, else `b`. -/
def pyOrOpt (a b : Option String) : Option String :=
  if strTruthy a then a else b

/-- Python `str(x)` for an optional string: `str(None)` is the literal
string `"None"`. -/
def pyStr : Option String → String
  | none => "None"
  | some s => s

/-- Python `s.lower()` restricted to the basic-latin range, modelled by
mapping `Char.toLower` over the characters. -/
def pyToLower (s : String) : String :=
  ⟨s.data.map Char.toLower⟩

/- ---------------------------------------------------------------------
Resolver: resolve_one_mcp_or_rest (netbox.py lines 410-437).
Polymorphic in the filter type `φ` and the entity type `α`.
--------------------------------------------------------------------- -/

/-- Result of a resolution together with the trace of filters actually sent
to each channel (used to state which filters were or were not attempted). -/
structure ResolveOut (φ α : Type) where
  result : Except PyErr α
  bridgeCalls : List φ
  restCalls : List φ

/-- The bridge loop of `resolve_one_mcp_or_rest` (lines 414-423): for each
filter call `mcp_invoke(mcp_tool, filter + limit 1)`; if the (normalised)
result list is non-empty return its head; if the call raises, record the
exception as `last_err` and `break` out of the loop.  Returns the found
entity or the final `last_err`, plus the trace of filters attempted. -/
def bridgeAttempts {φ α : Type} (bridge : φ → Except PyErr (List α)) :
    List φ → (Option α × Option PyErr) × List φ
  | [] => ((none, none), [])
  | f :: fs =>
    match bridge f with
    | .ok (x :: _) => ((some x, none), [f])
    | .ok [] =>
      let r := bridgeAttempts bridge fs
      (r.1, f :: r.2)
    | .error e => ((none, some e), [f])

/-- The REST fallback loop of `resolve_one_mcp_or_rest` (lines 425-434):
for each filter call `nb_get(rest_path, filter + limit 1)`; return the head
of the first non-empty result list; if a call raises, record the exception
as `last_err` and `continue` with the next filter. -/
def restAttempts {φ α : Type} (rest : φ → Except PyErr (List α)) :
    List φ → Option PyErr → (Option α × Option PyErr) × List φ
  | [], lastErr => ((none, lastErr), [])
  | f :: fs, lastErr =>
    match rest f with
    | .ok (x :: _) => ((some x, lastErr), [f])
    | .ok [] =>
      let r := restAttempts rest fs lastErr
      (r.1, f :: r.2)
    | .error e =>
      let r := restAttempts rest fs (some e)
      (r.1, f :: r.2)

/-- The `NotFoundError` raised at the end of `resolve_one_mcp_or_rest`. -/
def resolveNotFound (mcp_tool rest_path : String) : PyErr :=
  .http 404 ("Object not found via " ++ mcp_tool ++ " / " ++ rest_path)

/-- Model of `resolve_one_mcp_or_rest` (lines 410-437): try every filter on
the bridge (stopping at the first raised exception), then — only when both
`NETBOX_DIRECT_BASE` and `NETBOX_TOKEN` are truthy — retry the filter list
against REST; afterwards re-raise `last_err` when one was captured, else
raise the 404 `NotFoundError`. -/
def resolve_one_mcp_or_rest {φ α : Type} (mcp_tool rest_path : String)
    (try_filters : List φ)
    (bridge : φ → Except PyErr (List α))
    (netbox_direct_base netbox_token : Option String)
    (rest : φ → Except PyErr (List α)) : ResolveOut φ α :=
  match bridgeAttempts bridge try_filters with
  | ((some x, _), btr) => ⟨.ok x, btr, []⟩
  | ((none, lastErr), btr) =>
    if strTruthy netbox_direct_base && strTruthy netbox_token then
      match restAttempts rest try_filters lastErr with
      | ((some x, _), rtr) => ⟨.ok x, btr, rtr⟩
      | ((none, some e), rtr) => ⟨.error e, btr, rtr⟩
      | ((none, none), rtr) => ⟨.error (resolveNotFound mcp_tool rest_path), btr, rtr⟩
    else
      match lastErr with
      | some e => ⟨.error e, btr, []⟩
      | none => ⟨.error (resolveNotFound mcp_tool rest_path), btr, []⟩

/- ---------------------------------------------------------------------
Choice aggregation (netbox.py lines 162-258).
--------------------------------------------------------------------- -/

/-- A raw choice dictionary as consumed by `_norm_list` and
`_merge_choice_sources`: the keys read by the source are `value`, `label`,
`display` and `display_name`; absent keys are `none`. -/
structure RawItem where
  value : Option String
  label : Option String
  display : Option String
  display_name : Option String
deriving DecidableEq

/-- A normalised choice entry, as stored by the merge step:
a dictionary with exactly the keys `value` and `label`. -/
structure ChoiceItem where
  value : String
  label : String
deriving DecidableEq

/-- Model of `_norm_list` (lines 180-187): for each raw item compute
`value = str(x.get("value")).lower()` and
`label = x.get("label") or x.get("display") or x.get("display_name") or value`,
keeping the item only when `value` is truthy.  The produced two-key
dictionaries are represented as `RawItem`s whose extra keys are absent. -/
def _norm_list (lst : List RawItem) : List RawItem :=
  lst.filterMap (fun x =>
    let value := pyToLower (pyStr x.value)
    let label := (pyOrOpt x.label (pyOrOpt x.display (pyOrOpt x.display_name (some value)))).getD value
    if value.isEmpty then none
    else some { value := some value, label := some label, display := none, display_name := none })

/-- One source dictionary appended to `sources` in `list_choices`: for each
of the three target fields, the list stored under that key (`none` when the
key is absent, so that `src.get(key) or []` yields `[]`). -/
structure SourceDict where
  interface_types : Option (List RawItem)
  rear_port_types : Option (List RawItem)
  front_port_types : Option (List RawItem)
deriving DecidableEq

/-- The catalog returned by `_merge_choice_sources` and `list_choices`. -/
structure ChoiceCatalog where
  interface_types : List ChoiceItem
  rear_port_types : List ChoiceItem
  front_port_types : List ChoiceItem
deriving DecidableEq

/-- One iteration of the inner loop of `_merge_choice_sources`
(lines 194-198): compute `v = str(item.get("value", "")).lower()`; skip the
item when `v` is falsy or already a key of `seen`; otherwise insert
`seen[v] = the dict with value v and label (item.get("label") or v)`.
`seen` is the insertion-ordered dictionary, modelled as an association
list. -/
def mergeStep (seen : List (String × ChoiceItem)) (item : RawItem) :
    List (String × ChoiceItem) :=
  if (pyToLower (item.value.getD "")).isEmpty
      || seen.any (fun p => p.1 == pyToLower (item.value.getD "")) then seen
  else
    seen ++ [(pyToLower (item.value.getD ""),
      { value := pyToLower (item.value.getD "")
        label := (pyOrOpt item.label (some (pyToLower (item.value.getD "")))).getD
          (pyToLower (item.value.getD "")) })]

/-- The per-field merge of `_merge_choice_sources` (lines 192-199): iterate
over every source, then over the list that source holds for the field, and
return the values of `seen` in insertion order. -/
def mergeField (sources : List SourceDict) (get : SourceDict → Option (List RawItem)) :
    List ChoiceItem :=
  (((sources.map (fun s => (get s).getD [])).flatten).foldl mergeStep []).map Prod.snd

/-- Model of `_merge_choice_sources` (lines 189-200). -/
def _merge_choice_sources (sources : List SourceDict) : ChoiceCatalog :=
  { interface_types := mergeField sources (fun s => s.interface_types)
    rear_port_types := mergeField sources (fun s => s.rear_port_types)
    front_port_types := mergeField sources (fun s => s.front_port_types) }

/-- Model of `_fallback_choices` (lines 162-178). -/
def _fallback_choices : ChoiceCatalog :=
  { interface_types :=
      [⟨"virtual", "Virtual"⟩,
       ⟨"1000base-t", "1G Copper (1000BASE-T)"⟩,
       ⟨"10gbase-x-sfpp", "10G SFP+"⟩]
    rear_port_types := [⟨"8p8c", "8P8C (RJ45)"⟩, ⟨"lc", "LC"⟩]
    front_port_types := [⟨"8p8c", "8P8C (RJ45)"⟩, ⟨"lc", "LC"⟩] }

/-- Python `not any(merged.values())`: every field of the catalog is empty. -/
def ChoiceCatalog.allEmpty (c : ChoiceCatalog) : Bool :=
  c.interface_types.isEmpty && c.rear_port_types.isEmpty && c.front_port_types.isEmpty

/-- The decoded result of the bridge `netbox_get_choices` call, as consumed
by `maybe_norm` (lines 213-220): the three target keys when present, and the
vendor-keyed lists `interface:type`, `rearport:type`, `frontport:type`. -/
structure S1Payload where
  interface_types : Option (List RawItem)
  rear_port_types : Option (List RawItem)
  front_port_types : Option (List RawItem)
  interface_type_raw : Option (List RawItem)
  rearport_type_raw : Option (List RawItem)
  frontport_type_raw : Option (List RawItem)
deriving DecidableEq

/-- Model of the nested `maybe_norm` of `list_choices` (lines 213-220):
pass the payload through when any target key is present, otherwise
normalise the vendor-keyed lists (with default `[]`). -/
def maybe_norm (src : S1Payload) : SourceDict :=
  if src.interface_types.isSome || src.rear_port_types.isSome || src.front_port_types.isSome then
    ⟨src.interface_types, src.rear_port_types, src.front_port_types⟩
  else
    ⟨some (_norm_list (src.interface_type_raw.getD [])),
     some (_norm_list (src.rearport_type_raw.getD [])),
     some (_norm_list (src.frontport_type_raw.getD []))⟩

/-- The decoded body of the REST `/api/dcim/_choices/` endpoint, holding the
vendor-keyed lists read with default `[]` (lines 227-232). -/
structure RawChoices where
  interface_type : Option (List RawItem)
  rearport_type : Option (List RawItem)
  frontport_type : Option (List RawItem)
deriving DecidableEq

/-- The source built from the REST `_choices` endpoint (lines 228-232). -/
def restChoicesSource (choices : RawChoices) : SourceDict :=
  ⟨some (_norm_list (choices.interface_type.getD [])),
   some (_norm_list (choices.rearport_type.getD [])),
   some (_norm_list (choices.frontport_type.getD []))⟩

/-- The nested dictionaries walked by `opts_to` (lines 242-245), one
`Option` per `get(...) or` default. -/
structure OptsField where
  choices : Option (List RawItem)
deriving DecidableEq

structure OptsPost where
  type_field : Option OptsField
deriving DecidableEq

structure OptsActions where
  post : Option OptsPost
deriving DecidableEq

structure OptsResource where
  actions : Option OptsActions
deriving DecidableEq

/-- Model of `opts_to` (lines 242-245) applied to the `type` field:
`_norm_list(((src.get("actions") or {}).get("POST") or {}).get("type") or {}).get("choices") or [])`. -/
def opts_to (src : OptsResource) : List RawItem :=
  _norm_list ((((src.actions.getD ⟨none⟩).post.getD ⟨none⟩).type_field.getD ⟨none⟩).choices.getD [])

/-- The sources contributed by the REST `_choices` endpoint (source 2,
wrapped by a catch-all) and by the three `OPTIONS` calls (source 3, all
three calls inside one try, wrapped by a catch-all). -/
def restSources (s2 : Except PyErr RawChoices)
    (s3i s3r s3f : Except PyErr OptsResource) : List SourceDict :=
  (match s2 with
   | .ok c => [restChoicesSource c]
   | .error _ => []) ++
  (match s3i, s3r, s3f with
   | .ok a, .ok b, .ok c => [⟨some (opts_to a), some (opts_to b), some (opts_to c)⟩]
   | _, _, _ => [])

/-- The sources contributed by the bridge `netbox_get_choices` call when it
did not raise: `res = unwrap_result(data) or {}; if res: append(maybe_norm(res))`
(lines 208-221).  `none` stands for a falsy unwrapped result. -/
def bridgeChoicesSource (res : Option S1Payload) : List SourceDict :=
  match res with
  | none => []
  | some src => [maybe_norm src]

/-- Model of `list_choices` (lines 202-258).  The bridge call is wrapped
only by `except HTTPException: pass`, so a non-`HTTPException` exception
from it propagates; the other two sources are wrapped by catch-alls and can
only contribute or be skipped.  At the end, the merged catalog is replaced
by `_fallback_choices` when all of its fields are empty. -/
def list_choices (s1 : Except PyErr (Option S1Payload))
    (s2 : Except PyErr RawChoices)
    (s3i s3r s3f : Except PyErr OptsResource) : Except PyErr ChoiceCatalog :=
  match s1 with
  | .error e =>
    if e.isHTTPException then
      let merged := _merge_choice_sources (restSources s2 s3i s3r s3f)
      .ok (if merged.allEmpty then _fallback_choices else merged)
    else .error e
  | .ok res =>
    let merged := _merge_choice_sources (bridgeChoicesSource res ++ restSources s2 s3i s3r s3f)
    .ok (if merged.allEmpty then _fallback_choices else merged)

/- ---------------------------------------------------------------------
Device resolution and summary (netbox.py lines 264-314).
--------------------------------------------------------------------- -/

/-- One `netbox_get_devices` query issued by the name branch of
`device_with_ports`: the `name` filter, the optional `site` filter
(present only when the key was set), and the implicit `limit 1`. -/
structure DevQuery where
  name : String
  site : Option String
deriving DecidableEq

/-- A nested reference object (`site` or `role`) of a device, with the keys
the summary reads. -/
structure NamedRef where
  slug : Option String
  name : Option String
deriving DecidableEq

/-- The nested `device_type` object of a device, with the keys available:
the summary reads only `model`. -/
structure DTypeRef where
  slug : Option String
  name : Option String
  model : Option String
deriving DecidableEq

/-- A device object as returned by the device queries, restricted to the
keys that `device_with_ports` reads. -/
structure DevObj where
  id : Nat
  name : Option String
  site : Option NamedRef
  role : Option NamedRef
  device_type : Option DTypeRef
deriving DecidableEq

/-- The 404 raised when the name branch finds no device (line 296):
`f"Device not found: ... (site=...)"` with `site or "-"`. -/
def deviceNotFound (device : String) (site : Option String) : PyErr :=
  .http 404 ("Device not found: " ++ device ++ " (site=" ++ (pyOrOpt site (some "-")).getD "-" ++ ")")

/-- Model of the resolve-by-name branch of `device_with_ports`
(lines 285-297): build `filters = name + limit 1`, adding `site` only when
truthy; query the bridge; when the result list is empty AND `site` was
falsy, query once more without the site key; raise 404 when the final list
is empty, else take its head.  A raised bridge exception propagates (there
is no handler).  Also returns the trace of queries issued. -/
def deviceByName (device : String) (site : Option String)
    (getDevices : DevQuery → Except PyErr (List DevObj)) :
    Except PyErr DevObj × List DevQuery :=
  let q1 : DevQuery := ⟨device, if strTruthy site then site else none⟩
  match getDevices q1 with
  | .error e => (.error e, [q1])
  | .ok lst =>
    if lst.isEmpty && !strTruthy site then
      let q2 : DevQuery := ⟨device, none⟩
      match getDevices q2 with
      | .error e => (.error e, [q1, q2])
      | .ok lst2 =>
        match lst2 with
        | [] => (.error (deviceNotFound device site), [q1, q2])
        | d :: _ => (.ok d, [q1, q2])
    else
      match lst with
      | [] => (.error (deviceNotFound device site), [q1])
      | d :: _ => (.ok d, [q1])

/-- The slim device summary built by `device_with_ports` (lines 307-313). -/
structure DeviceSummary where
  id : Nat
  name : Option String
  site : Option String
  role : Option String
  device_type : Option String
deriving DecidableEq

/-- Model of the summary construction of `device_with_ports`
(lines 307-313): `site` and `role` are
`(dev_obj.get(k) or {}).get("slug") or (dev_obj.get(k) or {}).get("name")`,
while `device_type` is `(dev_obj.get("device_type") or {}).get("model")`. -/
def deviceSummary (dev : DevObj) : DeviceSummary :=
  { id := dev.id
    name := dev.name
    site := pyOrOpt (dev.site.getD ⟨none, none⟩).slug (dev.site.getD ⟨none, none⟩).name
    role := pyOrOpt (dev.role.getD ⟨none, none⟩).slug (dev.role.getD ⟨none, none⟩).name
    device_type := (dev.device_type.getD ⟨none, none, none⟩).model }

/-- The specification text for the `device_type` summary field, stated for
comparison with `deviceSummary`: expose the slug when present, falling back
to the name otherwise (the same rule the summary applies to site and
role). -/
def specDeviceTypeSlugOrName (dev : DevObj) : Option String :=
  pyOrOpt (dev.device_type.getD ⟨none, none, none⟩).slug (dev.device_type.getD ⟨none, none, none⟩).name

/- ---------------------------------------------------------------------
prepare_device (netbox.py lines 320-408).
--------------------------------------------------------------------- -/

/-- The request body of `prepare_device`, restricted to the keys it reads.
String-valued keys are `Option String` (absent = `none`). -/
structure PrepareBody where
  name : Option String
  site : Option String
  role : Option String
  device_type : Option String
  manufacturer : Option String
  status : Option String
  serial : Option String
  rack : Option String
  position : Option Int
  face : Option String
deriving DecidableEq

/-- `body.get(k)` for the required-field check of `prepare_device`. -/
def PrepareBody.get (b : PrepareBody) : String → Option String
  | "name" => b.name
  | "site" => b.site
  | "role" => b.role
  | "device_type" => b.device_type
  | _ => none

/-- The `required` list of `prepare_device` (line 330). -/
def requiredFields : List String := ["name", "site", "role", "device_type"]

/-- The `missing` list of `prepare_device` (line 331):
all required keys whose value is falsy, in declaration order. -/
def missingFields (b : PrepareBody) : List String :=
  requiredFields.filter (fun k => !strTruthy (b.get k))

/-- An already-resolved inventory object: `resolve_one_mcp_or_rest` callers
only read its `id` key. -/
structure Entity where
  id : Nat
deriving DecidableEq

/-- The filters `prepare_device` passes to the resolver: exact `name`,
`slug`, or (for device types) `model` match. -/
inductive PFilter where
  | byName (v : String)
  | bySlug (v : String)
  | byModel (v : String)
deriving DecidableEq

/-- The network environment of `prepare_device`: the bridge oracle keyed by
tool name, the REST configuration, and the REST oracle keyed by path. -/
structure ResolveEnv where
  bridge : String → PFilter → Except PyErr (List Entity)
  base : Option String
  token : Option String
  rest : String → PFilter → Except PyErr (List Entity)

/-- The payload assembled by `prepare_device` (lines 376-397). -/
structure DevicePayload where
  name : String
  site : Nat
  device_role : Nat
  role : Nat
  device_type : Nat
  status : String
  serial : Option String
  rack : Option String
  position : Option Int
  face : Option String
deriving DecidableEq

/-- The response of `prepare_device` (lines 399-408). -/
structure PreparedResult where
  payload : DevicePayload
  site_id : Nat
  role_id : Nat
  device_type_id : Nat
  manufacturer_id : Option Nat
deriving DecidableEq

/-- Model of `prepare_device` (lines 320-408): validate the four required
fields first, raising one 400 naming every missing field; then resolve
site, role, optional manufacturer and device type in that order through
`resolve_one_mcp_or_rest`, and assemble the payload (with the role id
duplicated under `device_role` and `role`, and `status` defaulted to
`"active"` and lower-cased). -/
def prepare_device (body : PrepareBody) (env : ResolveEnv) : Except PyErr PreparedResult :=
  let missing := missingFields body
  if missing.isEmpty then
    let name := (body.name.getD "").trim
    let site_in := (body.site.getD "").trim
    let role_in := (body.role.getD "").trim
    let dtype_in := (body.device_type.getD "").trim
    do
    let site_obj ← (resolve_one_mcp_or_rest "netbox_get_sites" "/api/dcim/sites/"
      [.byName site_in, .bySlug site_in] (env.bridge "netbox_get_sites")
      env.base env.token (env.rest "/api/dcim/sites/")).result
    let role_obj ← (resolve_one_mcp_or_rest "netbox_get_device_roles" "/api/dcim/device-roles/"
      [.byName role_in, .bySlug role_in] (env.bridge "netbox_get_device_roles")
      env.base env.token (env.rest "/api/dcim/device-roles/")).result
    let manufacturer_id ←
      if strTruthy body.manufacturer then do
        let manu_in := (body.manufacturer.getD "").trim
        let manu_obj ← (resolve_one_mcp_or_rest "netbox_get_manufacturers" "/api/dcim/manufacturers/"
          [.byName manu_in, .bySlug manu_in] (env.bridge "netbox_get_manufacturers")
          env.base env.token (env.rest "/api/dcim/manufacturers/")).result
        pure (some manu_obj.id)
      else pure (none : Option Nat)
    let dtype_obj ← (resolve_one_mcp_or_rest "netbox_get_device_types" "/api/dcim/device-types/"
      [.byModel dtype_in, .bySlug dtype_in] (env.bridge "netbox_get_device_types")
      env.base env.token (env.rest "/api/dcim/device-types/")).result
    pure
      { payload :=
          { name := name
            site := site_obj.id
            device_role := role_obj.id
            role := role_obj.id
            device_type := dtype_obj.id
            status := pyToLower ((pyOrOpt body.status (some "active")).getD "active")
            serial := body.serial
            rack := if strTruthy body.rack then body.rack else none
            position := body.position
            face := if strTruthy body.face then body.face else none }
        site_id := site_obj.id
        role_id := role_obj.id
        device_type_id := dtype_obj.id
        manufacturer_id := manufacturer_id }
  else
    .error (.http 400 ("Missing fields: " ++ String.intercalate ", " missing))

/- ---------------------------------------------------------------------
Batch creation (netbox.py lines 479-616).
--------------------------------------------------------------------- -/

/-- The request body of a batch create endpoint: `device_id` and the item
list under the kind-specific key (`none` when the key is absent, so that
`or []` yields `[]`). -/
structure BatchBody (ι : Type) where
  device_id : Option Nat
  items : Option (List ι)

/-- One entry of the `errors` list: the offending input item and the
exception recorded for it (`getattr(e, "detail", str(e))` keeps only the
message; the model keeps the whole exception). -/
structure ErrEntry (ι : Type) where
  input : ι
  error : PyErr
deriving DecidableEq

/-- What the two creation channels would answer for one item: the bridge
`netbox_create_*` call and the REST POST fallback. -/
structure ItemChannels (γ : Type) where
  bridgeCreate : Except PyErr γ
  restCreate : Except PyErr γ

/-- The nested try of the per-item loop (e.g. lines 510-517): try the
bridge create; `except HTTPException` try the REST create; the outer
`except Exception` turns any remaining exception into an error entry. -/
def attemptOne {γ ι : Type} (it : ι) (ch : ItemChannels γ) : Sum γ (ErrEntry ι) :=
  match ch.bridgeCreate with
  | .ok o => .inl o
  | .error e =>
    if e.isHTTPException then
      match ch.restCreate with
      | .ok o => .inl o
      | .error e2 => .inr ⟨it, e2⟩
    else .inr ⟨it, e⟩

/-- The per-item fallback loop shared by the three create endpoints
(lines 502-517, 544-560, 590-612): for each item build its payload (the
mandatory subscripts sit OUTSIDE the try, so a build failure propagates and
aborts the whole loop), then attempt the creation, appending to `created`
or `errors`. -/
def perItemLoop {ι π γ : Type} (build : ι → Except PyErr π)
    (channels : ι → ItemChannels γ) :
    List ι → Except PyErr (List γ × List (ErrEntry ι))
  | [] => .ok ([], [])
  | it :: more =>
    match build it with
    | .error e => .error e
    | .ok _ =>
      match perItemLoop build channels more with
      | .error e => .error e
      | .ok (cs, es) =>
        match attemptOne it (channels it) with
        | .inl c => .ok (c :: cs, es)
        | .inr err => .ok (cs, err :: es)

/-- The response of a create endpoint: the bulk bridge response returned
as-is, or the per-item `ok / created / errors` body. -/
inductive CreateResp (γ ι : Type) where
  | bulk (raw : γ)
  | perItem (created : List γ) (errors : List (ErrEntry ι))

/-- One interface item of `create_interfaces`: keys `name` and `type` are
read with mandatory subscripts, `description` with `get`. -/
structure IfaceItem where
  name : Option String
  type : Option String
  description : Option String
deriving DecidableEq

/-- The per-interface payload (lines 504-509). -/
structure IfacePayload where
  device : Option Nat
  name : String
  type : String
  description : Option String
deriving DecidableEq

/-- Payload construction for one interface (lines 504-509):
`it["name"]` and `str(it["type"]).lower()` raise `KeyError` when absent;
`description` is copied only when truthy. -/
def ifacePayload (device_id : Option Nat) (it : IfaceItem) : Except PyErr IfacePayload :=
  match it.name with
  | none => .error (.keyError "name")
  | some nm =>
    match it.type with
    | none => .error (.keyError "type")
    | some ty =>
      .ok { device := device_id
            name := nm
            type := pyToLower ty
            description := if strTruthy it.description then it.description else none }

/-- Model of `create_interfaces` (lines 479-521): validate
`device_id and interfaces[]`, try the bulk bridge create (wrapped only by
`except HTTPException`), then run the per-item loop; raise a 502 when every
item failed, else return the partial result. -/
def create_interfaces {γ : Type} (body : BatchBody IfaceItem)
    (bulkCreate : Except PyErr γ)
    (channels : IfaceItem → ItemChannels γ) : Except PyErr (CreateResp γ IfaceItem) :=
  if !natTruthy body.device_id || (body.items.getD []).isEmpty then
    .error (.http 400 "device_id and interfaces[] are required")
  else
    match bulkCreate with
    | .ok raw => .ok (.bulk raw)
    | .error e =>
      if e.isHTTPException then
        match perItemLoop (ifacePayload body.device_id) channels (body.items.getD []) with
        | .error e2 => .error e2
        | .ok (cs, es) =>
          if !es.isEmpty && cs.isEmpty then
            .error (.http 502 "All interface creates failed")
          else .ok (.perItem cs es)
      else .error e

/-- One rear-port item of `create_rear_ports`. -/
structure RearItem where
  name : Option String
  type : Option String
  positions : Option Nat
  description : Option String
deriving DecidableEq

/-- The per-rear-port payload (lines 546-552). -/
structure RearPayload where
  device : Option Nat
  name : String
  type : String
  positions : Nat
  description : Option String
deriving DecidableEq

/-- Payload construction for one rear port (lines 546-552):
`positions = int(rp.get("positions", 1) or 1)` turns both an absent key and
a falsy `0` into `1`. -/
def rearPayload (device_id : Option Nat) (rp : RearItem) : Except PyErr RearPayload :=
  match rp.name with
  | none => .error (.keyError "name")
  | some nm =>
    match rp.type with
    | none => .error (.keyError "type")
    | some ty =>
      .ok { device := device_id
            name := nm
            type := pyToLower ty
            positions := match rp.positions with
              | none => 1
              | some 0 => 1
              | some n => n
            description := if strTruthy rp.description then rp.description else none }

/-- Model of `create_rear_ports` (lines 523-564), same shape as
`create_interfaces`. -/
def create_rear_ports {γ : Type} (body : BatchBody RearItem)
    (bulkCreate : Except PyErr γ)
    (channels : RearItem → ItemChannels γ) : Except PyErr (CreateResp γ RearItem) :=
  if !natTruthy body.device_id || (body.items.getD []).isEmpty then
    .error (.http 400 "device_id and rear_ports[] are required")
  else
    match bulkCreate with
    | .ok raw => .ok (.bulk raw)
    | .error e =>
      if e.isHTTPException then
        match perItemLoop (rearPayload body.device_id) channels (body.items.getD []) with
        | .error e2 => .error e2
        | .ok (cs, es) =>
          if !es.isEmpty && cs.isEmpty then
            .error (.http 502 "All rear-port creates failed")
          else .ok (.perItem cs es)
      else .error e

/-- One front-port item of `create_front_ports`: `name`, `type` and
`rear_port_id` are read with mandatory subscripts. -/
structure FrontItem where
  name : Option String
  type : Option String
  rear_port_id : Option Nat
  rear_port_position : Option Nat
  description : Option String
deriving DecidableEq

/-- The per-front-port payload (lines 593-603): the `device` key is set
only when `device_id` is truthy. -/
structure FrontPayload where
  name : String
  type : String
  rear_port : Nat
  rear_port_position : Nat
  device : Option Nat
  description : Option String
deriving DecidableEq

/-- Payload construction for one front port (lines 593-603): unlike
interfaces, `type` is NOT lower-cased; the `device` key is included only
when `device_id` is truthy. -/
def frontPayload (device_id : Option Nat) (fp : FrontItem) : Except PyErr FrontPayload :=
  match fp.name with
  | none => .error (.keyError "name")
  | some nm =>
    match fp.type with
    | none => .error (.keyError "type")
    | some ty =>
      match fp.rear_port_id with
      | none => .error (.keyError "rear_port_id")
      | some rid =>
        .ok { name := nm
              type := ty
              rear_port := rid
              rear_port_position := match fp.rear_port_position with
                | none => 1
                | some 0 => 1
                | some n => n
              device := if natTruthy device_id then device_id else none
              description := if strTruthy fp.description then fp.description else none }

/-- Model of `create_front_ports` (lines 566-616): the validation requires
only a non-empty `front_ports[]` — `device_id` is never checked. -/
def create_front_ports {γ : Type} (body : BatchBody FrontItem)
    (bulkCreate : Except PyErr γ)
    (channels : FrontItem → ItemChannels γ) : Except PyErr (CreateResp γ FrontItem) :=
  if (body.items.getD []).isEmpty then
    .error (.http 400 "front_ports[] is required")
  else
    match bulkCreate with
    | .ok raw => .ok (.bulk raw)
    | .error e =>
      if e.isHTTPException then
        match perItemLoop (frontPayload body.device_id) channels (body.items.getD []) with
        | .error e2 => .error e2
        | .ok (cs, es) =>
          if !es.isEmpty && cs.isEmpty then
            .error (.http 502 "All front-port creates failed")
          else .ok (.perItem cs es)
      else .error e

/-- Two choice sources used by concrete witnesses: the same rear-port value
appears in both (with different case and labels), so the merge has a
duplicate to discard. -/
def c7DemoSources : List SourceDict :=
  [⟨some [⟨some "virtual", some "Virtual", none, none⟩],
    some [⟨some "LC", some "LC first", none, none⟩], some []⟩,
   ⟨some [], some [⟨some "lc", some "LC second", none, none⟩],
    some [⟨some "8p8c", none, none, none⟩]⟩]

/- ---------------------------------------------------------------------
Helper lemmas.
--------------------------------------------------------------------- -/

theorem char_toLower_idem (c : Char) : c.toLower.toLower = c.toLower := by
  unfold Char.toLower
  by_cases h : c.toNat ≥ 65 ∧ c.toNat ≤ 90
  · rw [if_pos h]
    have hv : (c.toNat + 32).isValidChar := by
      constructor
      omega
    rw [Char.ofNat, dif_pos hv]
    have ht : (Char.ofNatAux (c.toNat + 32) hv).toNat = c.toNat + 32 := rfl
    rw [ht, if_neg]
    omega
  · rw [if_neg h, if_neg h]

theorem pyToLower_idem (s : String) : pyToLower (pyToLower s) = pyToLower s := by
  show (⟨((⟨s.data.map Char.toLower⟩ : String)).data.map Char.toLower⟩ : String) = _
  simp only [List.map_map]
  congr 1
  apply List.map_congr_left
  intro c _
  exact char_toLower_idem c

theorem bridgeAttempts_append_empties {φ α : Type} (bridge : φ → Except PyErr (List α))
    (pre fs : List φ) (h : ∀ f ∈ pre, bridge f = .ok []) :
    bridgeAttempts bridge (pre ++ fs) =
      ((bridgeAttempts bridge fs).1, pre ++ (bridgeAttempts bridge fs).2) := by
  induction pre with
  | nil => simp
  | cons f pre ih =>
    have hf : bridge f = .ok [] := h f (by simp)
    have ih2 := ih (fun g hg => h g (by simp [hg]))
    simp [bridgeAttempts, hf, ih2]

theorem bridgeAttempts_first_match {φ α : Type} (bridge : φ → Except PyErr (List α))
    (pre post : List φ) (fm : φ) (x : α) (xs : List α)
    (hpre : ∀ f ∈ pre, bridge f = .ok []) (hm : bridge fm = .ok (x :: xs)) :
    bridgeAttempts bridge (pre ++ fm :: post) = ((some x, none), pre ++ [fm]) := by
  rw [bridgeAttempts_append_empties bridge pre (fm :: post) hpre]
  simp [bridgeAttempts, hm]

theorem bridgeAttempts_first_error {φ α : Type} (bridge : φ → Except PyErr (List α))
    (pre post : List φ) (fm : φ) (e : PyErr)
    (hpre : ∀ f ∈ pre, bridge f = .ok []) (hm : bridge fm = .error e) :
    bridgeAttempts bridge (pre ++ fm :: post) = ((none, some e), pre ++ [fm]) := by
  rw [bridgeAttempts_append_empties bridge pre (fm :: post) hpre]
  simp [bridgeAttempts, hm]

theorem restAttempts_first_match {φ α : Type} (rest : φ → Except PyErr (List α))
    (pre post : List φ) (fm : φ) (x : α) (xs : List α)
    (hpre : ∀ f ∈ pre, rest f = .ok [] ∨ ∃ e, rest f = .error e)
    (hm : rest fm = .ok (x :: xs)) :
    ∀ lastErr, (restAttempts rest (pre ++ fm :: post) lastErr).1.1 = some x ∧
      (restAttempts rest (pre ++ fm :: post) lastErr).2 = pre ++ [fm] := by
  induction pre with
  | nil => intro lastErr; simp [restAttempts, hm]
  | cons f pre ih =>
    intro lastErr
    have ih2 := ih (fun g hg => hpre g (by simp [hg]))
    rcases hpre f (by simp) with hf | ⟨e, hf⟩ <;>
      simpa [restAttempts, hf] using ih2 _

theorem restAttempts_trace_cons {φ α : Type} (rest : φ → Except PyErr (List α))
    (f : φ) (fs : List φ) (lastErr : Option PyErr) :
    ∃ r tr, restAttempts rest (f :: fs) lastErr = (r, f :: tr) := by
  cases hf : rest f with
  | ok lst =>
    cases lst with
    | nil =>
      exact ⟨(restAttempts rest fs lastErr).1, (restAttempts rest fs lastErr).2,
        by simp [restAttempts, hf]⟩
    | cons x xs => exact ⟨(some x, lastErr), [], by simp [restAttempts, hf]⟩
  | error e =>
    exact ⟨(restAttempts rest fs (some e)).1, (restAttempts rest fs (some e)).2,
      by simp [restAttempts, hf]⟩

theorem perItemLoop_total {ι π γ : Type} (build : ι → Except PyErr π)
    (channels : ι → ItemChannels γ) (items : List ι)
    (h : ∀ it ∈ items, ∃ p, build it = .ok p) :
    ∃ cs es, perItemLoop build channels items = .ok (cs, es) ∧
      cs.length + es.length = items.length := by
  induction items with
  | nil => exact ⟨[], [], rfl, rfl⟩
  | cons it more ih =>
    obtain ⟨p, hp⟩ := h it (by simp)
    obtain ⟨cs, es, hloop, hlen⟩ := ih (fun x hx => h x (by simp [hx]))
    cases hA : attemptOne it (channels it) with
    | inl c =>
      refine ⟨c :: cs, es, ?_, ?_⟩
      · simp [perItemLoop, hp, hloop, hA]
      · simp only [List.length_cons]
        omega
    | inr err =>
      refine ⟨cs, err :: es, ?_, ?_⟩
      · simp [perItemLoop, hp, hloop, hA]
      · simp only [List.length_cons]
        omega

theorem perItemLoop_error_from_build {ι π γ : Type} (build : ι → Except PyErr π)
    (channels : ι → ItemChannels γ) (items : List ι) (e : PyErr)
    (h : perItemLoop build channels items = .error e) :
    ∃ it ∈ items, build it = .error e := by
  induction items with
  | nil => simp [perItemLoop] at h
  | cons it more ih =>
    rw [perItemLoop] at h
    cases hb : build it with
    | error e2 =>
      rw [hb] at h
      have he : e2 = e := by simpa using h
      exact ⟨it, by simp, by rw [hb, he]⟩
    | ok p =>
      rw [hb] at h
      cases hl : perItemLoop build channels more with
      | error e2 =>
        rw [hl] at h
        have he : e2 = e := by simpa using h
        obtain ⟨x, hx, hbx⟩ := ih (he ▸ hl)
        exact ⟨x, List.mem_cons_of_mem _ hx, hbx⟩
      | ok pr =>
        rw [hl] at h
        rcases hA : attemptOne it (channels it) with c | err <;> rw [hA] at h <;> simp at h

theorem frontPayload_error_keyError (d : Option Nat) (fp : FrontItem) (e : PyErr)
    (h : frontPayload d fp = .error e) : ∃ k, e = .keyError k := by
  unfold frontPayload at h
  split at h
  · exact ⟨"name", (Except.error.inj h).symm⟩
  · split at h
    · exact ⟨"type", (Except.error.inj h).symm⟩
    · split at h
      · exact ⟨"rear_port_id", (Except.error.inj h).symm⟩
      · simp at h

theorem perItemLoop_ok_length {ι π γ : Type} (build : ι → Except PyErr π)
    (channels : ι → ItemChannels γ) (items : List ι)
    (cs : List γ) (es : List (ErrEntry ι))
    (hl : perItemLoop build channels items = .ok (cs, es)) :
    cs.length + es.length = items.length := by
  induction items generalizing cs es with
  | nil =>
    simp only [perItemLoop, Except.ok.injEq, Prod.mk.injEq] at hl
    rw [← hl.1, ← hl.2]
    rfl
  | cons it more ih =>
    rw [perItemLoop] at hl
    cases hb : build it with
    | error e => rw [hb] at hl; simp at hl
    | ok p =>
      rw [hb] at hl
      cases hrec : perItemLoop build channels more with
      | error e => rw [hrec] at hl; simp at hl
      | ok pr =>
        rcases pr with ⟨cs2, es2⟩
        rw [hrec] at hl
        have hih := ih cs2 es2 hrec
        cases hA : attemptOne it (channels it) with
        | inl c =>
          rw [hA] at hl
          simp only [Except.ok.injEq, Prod.mk.injEq] at hl
          rw [← hl.1, ← hl.2]
          simp only [List.length_cons]
          omega
        | inr err =>
          rw [hA] at hl
          simp only [Except.ok.injEq, Prod.mk.injEq] at hl
          rw [← hl.1, ← hl.2]
          simp only [List.length_cons]
          omega

theorem create_interfaces_perItem_inv {γ : Type} (body : BatchBody IfaceItem)
    (bulk : Except PyErr γ) (channels : IfaceItem → ItemChannels γ)
    (cs : List γ) (es : List (ErrEntry IfaceItem))
    (hc : create_interfaces body bulk channels = .ok (.perItem cs es)) :
    perItemLoop (ifacePayload body.device_id) channels (body.items.getD []) = .ok (cs, es) := by
  unfold create_interfaces at hc
  repeat' split at hc
  all_goals first
    | (simp at hc; done)
    | (simp only [Except.ok.injEq, CreateResp.perItem.injEq] at hc
       obtain ⟨h1, h2⟩ := hc
       rw [← h1, ← h2]
       assumption)

theorem foldl_mergeStep_inv (stream : List RawItem) :
    ∀ seen, (∀ p ∈ seen, p.2.value = p.1 ∧ pyToLower p.1 = p.1) →
    ∀ p ∈ stream.foldl mergeStep seen, p.2.value = p.1 ∧ pyToLower p.1 = p.1 := by
  induction stream with
  | nil => intro seen h; exact h
  | cons it rest ih =>
    intro seen h
    apply ih
    intro p hp
    unfold mergeStep at hp
    split at hp
    · exact h p hp
    · rcases List.mem_append.mp hp with hp1 | hp2
      · exact h p hp1
      · have hp3 : p = (pyToLower (it.value.getD ""),
          { value := pyToLower (it.value.getD ""),
            label := (pyOrOpt it.label (some (pyToLower (it.value.getD "")))).getD
              (pyToLower (it.value.getD "")) }) := by simpa using hp2
        rw [hp3]
        exact ⟨rfl, pyToLower_idem _⟩

theorem foldl_mergeStep_nodup (stream : List RawItem) :
    ∀ seen, ((seen.map Prod.fst).Nodup) →
    ((stream.foldl mergeStep seen).map Prod.fst).Nodup := by
  induction stream with
  | nil => intro seen h; exact h
  | cons it rest ih =>
    intro seen h
    apply ih
    unfold mergeStep
    split
    · exact h
    · rename_i hcond
      rw [List.map_append, List.nodup_append]
      have hcond2 : ((pyToLower (it.value.getD "")).isEmpty
          || seen.any (fun p => p.1 == pyToLower (it.value.getD ""))) = false := by
        rwa [Bool.not_eq_true] at hcond
      obtain ⟨hemp2, hany2⟩ := Bool.or_eq_false_iff.mp hcond2
      refine ⟨h, by simp, ?_⟩
      intro a ha hb
      have ha2 : a = pyToLower (it.value.getD "") := by simpa using hb
      obtain ⟨p, hp, hpv⟩ := List.mem_map.mp ha
      have h3 := List.any_eq_false.mp hany2 p hp
      apply h3
      rw [hpv, ha2]
      simp

theorem find?_map_snd_of_inv (l : List (String × ChoiceItem)) (v : String)
    (hinv : ∀ p ∈ l, p.2.value = p.1) :
    (l.map Prod.snd).find? (fun e => e.value == v) =
      (l.find? (fun p => p.1 == v)).map Prod.snd := by
  induction l with
  | nil => rfl
  | cons p l ih =>
    have hp := hinv p (by simp)
    by_cases hv : (p.1 == v) = true
    · simp [List.find?_cons, hp, hv]
    · have hv2 : (p.1 == v) = false := by simpa using hv
      simp [List.find?_cons, hp, hv2, ih (fun q hq => hinv q (by simp [hq]))]

theorem foldl_mergeStep_find (v : String) (hv : v ≠ "") :
    ∀ (stream : List RawItem) (seen : List (String × ChoiceItem)),
    (stream.foldl mergeStep seen).find? (fun p => p.1 == v) =
      (seen.find? (fun p => p.1 == v)).or
        ((stream.find? (fun it => pyToLower (it.value.getD "") == v)).map
          (fun it => (v, ⟨v, (pyOrOpt it.label (some v)).getD v⟩))) := by
  intro stream
  induction stream with
  | nil => intro seen; simp
  | cons it rest ih =>
    intro seen
    rw [List.foldl_cons, ih (mergeStep seen it)]
    by_cases hcond : ((pyToLower (it.value.getD "")).isEmpty
        || seen.any (fun p => p.1 == pyToLower (it.value.getD ""))) = true
    · have hms : mergeStep seen it = seen := by rw [mergeStep, if_pos hcond]
      rw [hms]
      by_cases hvv : (pyToLower (it.value.getD "") == v) = true
      · have hveq : pyToLower (it.value.getD "") = v := by simpa using hvv
        have hhead : (it :: rest).find? (fun x => pyToLower (x.value.getD "") == v)
            = some it := by
          simp [List.find?_cons, hvv]
        rw [hhead]
        rcases Bool.or_eq_true_iff.mp hcond with hemp | hany
        · exact absurd ((String.isEmpty_iff _).mp hemp) (fun h2 => hv (hveq ▸ h2))
        · obtain ⟨p, hp, hpv⟩ := List.any_eq_true.mp hany
          rcases hfind : seen.find? (fun p => p.1 == v) with _ | w
          · exfalso
            rw [List.find?_eq_none] at hfind
            refine hfind p hp ?_
            rw [hveq] at hpv
            exact hpv
          · rw [hfind]
            simp
      · have hv2 : (pyToLower (it.value.getD "") == v) = false := by simpa using hvv
        have hhead : (it :: rest).find? (fun x => pyToLower (x.value.getD "") == v) =
            rest.find? (fun x => pyToLower (x.value.getD "") == v) := by
          simp [List.find?_cons, hv2]
        rw [hhead]
    · have hcond2 : ((pyToLower (it.value.getD "")).isEmpty
          || seen.any (fun p => p.1 == pyToLower (it.value.getD ""))) = false := by
        rwa [Bool.not_eq_true] at hcond
      obtain ⟨hemp2, hany2⟩ := Bool.or_eq_false_iff.mp hcond2
      have hms : mergeStep seen it = seen ++ [(pyToLower (it.value.getD ""),
          { value := pyToLower (it.value.getD ""),
            label := (pyOrOpt it.label (some (pyToLower (it.value.getD "")))).getD
              (pyToLower (it.value.getD "")) })] := by
        rw [mergeStep, if_neg]
        rw [hcond2]
        simp
      rw [hms]
      by_cases hvv : (pyToLower (it.value.getD "") == v) = true
      · have hveq : pyToLower (it.value.getD "") = v := by simpa using hvv
        have hhead : (it :: rest).find? (fun x => pyToLower (x.value.getD "") == v)
            = some it := by
          simp [List.find?_cons, hvv]
        rw [hhead]
        have hnone : seen.find? (fun p => p.1 == v) = none := by
          rw [List.find?_eq_none]
          intro p hp hpv
          have h3 := List.any_eq_false.mp hany2 p hp
          rw [hveq] at h3
          exact h3 hpv
        simp [List.find?_append, hnone, hveq]
      · have hv2 : (pyToLower (it.value.getD "") == v) = false := by simpa using hvv
        have hhead : (it :: rest).find? (fun x => pyToLower (x.value.getD "") == v) =
            rest.find? (fun x => pyToLower (x.value.getD "") == v) := by
          simp [List.find?_cons, hv2]
        rw [hhead]
        simp [List.find?_append, hv2, Option.or_none]

/- ---------------------------------------------------------------------
Claim theorems.
--------------------------------------------------------------------- -/

/-- C1: the claim states that a by-name device lookup with a site filter
whose first bridge query is empty retries exactly once without the site
constraint before raising 404.  The code retries only when NO site was
given (line 291 tests `not lst and not site`), so with a truthy site and an
empty first result it raises the 404 immediately: exactly one query is
issued and zero retries occur. -/
theorem deviceByName_site_given_no_retry (device : String) (site : Option String)
    (getDevices : DevQuery → Except PyErr (List DevObj))
    (hs : strTruthy site = true)
    (he : getDevices ⟨device, site⟩ = .ok []) :
    deviceByName device site getDevices =
      (.error (deviceNotFound device site), [⟨device, site⟩]) := by
  simp [deviceByName, hs, he]

/-- C1 witness: the failing input — device `"cam-01"`, site `"fra"`, bridge
returning zero results for the site-filtered query (and for every other
query): the code raises 404 after the single site-filtered query. -/
theorem deviceByName_site_given_no_retry_witness :
    deviceByName "cam-01" (some "fra") (fun _ => .ok []) =
      (.error (deviceNotFound "cam-01" (some "fra")), [⟨"cam-01", some "fra"⟩]) :=
  deviceByName_site_given_no_retry "cam-01" (some "fra") (fun _ => .ok []) (by decide) rfl

/-- C2 counterexample: resolving role `"Camera"` when the bridge raises a
`BridgeError` (HTTP 502) on the first filter and REST is unconfigured — the
claim says the result is a `NotFoundError`, but `resolve_one_mcp_or_rest`
re-raises the captured bridge error itself (line 436). -/
theorem resolveOne_bridge_error_is_reraised_not_404 :
    (resolve_one_mcp_or_rest "netbox_get_device_roles" "/api/dcim/device-roles/"
        [PFilter.byName "Camera", PFilter.bySlug "Camera"]
        (fun _ => .error (.http 502 "MCP call failed: role lookup exploded"))
        none none (fun _ => .ok ([] : List Entity))).result
      = .error (.http 502 "MCP call failed: role lookup exploded") ∧
    (resolve_one_mcp_or_rest "netbox_get_device_roles" "/api/dcim/device-roles/"
        [PFilter.byName "Camera", PFilter.bySlug "Camera"]
        (fun _ => .error (.http 502 "MCP call failed: role lookup exploded"))
        none none (fun _ => .ok ([] : List Entity))).result
      ≠ .error (resolveNotFound "netbox_get_device_roles" "/api/dcim/device-roles/") := by
  constructor
  · rfl
  · intro h
    have h2 : (Except.error (PyErr.http 502 "MCP call failed: role lookup exploded") :
        Except PyErr Entity) =
        .error (resolveNotFound "netbox_get_device_roles" "/api/dcim/device-roles/") := h
    simp [resolveNotFound] at h2

/-- C2 amended: when the bridge raises on the first filter and the REST
fallback is unconfigured, `resolve_one_mcp_or_rest` fails with the bridge
channel's own captured error (not a `NotFoundError` and not a configuration
error — the REST channel is never consulted: its trace is empty). -/
theorem resolveOne_bridge_error_unconfigured {φ α : Type} (mcp_tool rest_path : String)
    (f : φ) (fs : List φ)
    (bridge rest : φ → Except PyErr (List α))
    (base tok : Option String) (e : PyErr)
    (hcfg : (strTruthy base && strTruthy tok) = false)
    (he : bridge f = .error e) :
    resolve_one_mcp_or_rest mcp_tool rest_path (f :: fs) bridge base tok rest =
      ⟨.error e, [f], []⟩ := by
  have hb : bridgeAttempts bridge (f :: fs) = ((none, some e), [f]) := by
    simp [bridgeAttempts, he]
  simp [resolve_one_mcp_or_rest, hb, hcfg]

/-- C2 witness: concrete instance of the amended claim. -/
theorem resolveOne_bridge_error_unconfigured_witness :
    resolve_one_mcp_or_rest "netbox_get_device_roles" "/api/dcim/device-roles/"
        [PFilter.byName "Camera", PFilter.bySlug "Camera"]
        (fun _ => .error (.http 502 "MCP call failed: boom"))
        none none (fun _ => .ok ([] : List Entity)) =
      ⟨.error (.http 502 "MCP call failed: boom"), [PFilter.byName "Camera"], []⟩ :=
  resolveOne_bridge_error_unconfigured "netbox_get_device_roles" "/api/dcim/device-roles/"
    (PFilter.byName "Camera") [PFilter.bySlug "Camera"] _ _ none none _ rfl rfl

/-- C3: the first filter that yields a match on the first succeeding
channel wins.  Part one: when every bridge filter before `fm` succeeds with
zero results and `fm` yields a match, the resolver returns that match, the
bridge trace stops at `fm` (later filters are not tried) and REST is never
consulted.  Part two: when the bridge produced no match and REST is
configured, the first REST filter with a non-empty result wins and the REST
trace stops there. -/
theorem resolveOne_first_match {φ α : Type} (mcp_tool rest_path : String)
    (bridge rest : φ → Except PyErr (List α)) (base tok : Option String) :
    (∀ (pre post : List φ) (fm : φ) (x : α) (xs : List α),
      (∀ f ∈ pre, bridge f = .ok []) → bridge fm = .ok (x :: xs) →
      resolve_one_mcp_or_rest mcp_tool rest_path (pre ++ fm :: post) bridge base tok rest =
        ⟨.ok x, pre ++ [fm], []⟩) ∧
    (∀ (pre post : List φ) (fm : φ) (x : α) (xs : List α)
        (lastErr : Option PyErr) (btr : List φ),
      bridgeAttempts bridge (pre ++ fm :: post) = ((none, lastErr), btr) →
      (strTruthy base && strTruthy tok) = true →
      (∀ f ∈ pre, rest f = .ok [] ∨ ∃ e, rest f = .error e) →
      rest fm = .ok (x :: xs) →
      (resolve_one_mcp_or_rest mcp_tool rest_path (pre ++ fm :: post) bridge base tok rest).result
          = .ok x ∧
      (resolve_one_mcp_or_rest mcp_tool rest_path (pre ++ fm :: post) bridge base tok rest).restCalls
          = pre ++ [fm]) := by
  constructor
  · intro pre post fm x xs hpre hm
    have hb := bridgeAttempts_first_match bridge pre post fm x xs hpre hm
    simp [resolve_one_mcp_or_rest, hb]
  · intro pre post fm x xs lastErr btr hb hcfg hpre hm
    have hr := restAttempts_first_match rest pre post fm x xs hpre hm lastErr
    rcases hR : restAttempts rest (pre ++ fm :: post) lastErr with ⟨⟨r1, le2⟩, rtr⟩
    rw [hR] at hr
    simp only at hr
    obtain ⟨hr1, hr2⟩ := hr
    subst hr1 hr2
    simp [resolve_one_mcp_or_rest, hb, hcfg, hR]

/-- C3 witness: two filters, the first matching on the bridge; the match of
the first filter is returned, the second filter is never sent, REST is
never consulted. -/
theorem resolveOne_first_match_witness :
    resolve_one_mcp_or_rest "netbox_get_sites" "/api/dcim/sites/"
        [PFilter.byName "fra", PFilter.bySlug "fra"]
        (fun f => match f with
          | PFilter.byName _ => .ok [(⟨11⟩ : Entity)]
          | _ => .ok [⟨99⟩])
        none none (fun _ => .ok []) =
      ⟨.ok ⟨11⟩, [PFilter.byName "fra"], []⟩ := by
  have h := (resolveOne_first_match "netbox_get_sites" "/api/dcim/sites/"
      (fun f => match f with
        | PFilter.byName _ => .ok [(⟨11⟩ : Entity)]
        | _ => .ok [⟨99⟩])
      (fun _ => .ok []) none none).1
    [] [PFilter.bySlug "fra"] (PFilter.byName "fra") ⟨11⟩ [] (by simp) rfl
  simpa using h

/-- C4: when a bridge call raises (channel failure rather than zero
results), no later filter is sent to the bridge, and the REST fallback is
consulted exactly when both the base URL and the token are configured. -/
theorem resolveOne_bridge_failure_shortcircuit {φ α : Type} (mcp_tool rest_path : String)
    (bridge rest : φ → Except PyErr (List α)) (base tok : Option String)
    (pre post : List φ) (fm : φ) (e : PyErr)
    (hpre : ∀ f ∈ pre, bridge f = .ok []) (he : bridge fm = .error e) :
    (resolve_one_mcp_or_rest mcp_tool rest_path (pre ++ fm :: post) bridge base tok rest).bridgeCalls
        = pre ++ [fm] ∧
    ((strTruthy base && strTruthy tok) = false →
      (resolve_one_mcp_or_rest mcp_tool rest_path (pre ++ fm :: post) bridge base tok rest).restCalls
        = []) ∧
    ((strTruthy base && strTruthy tok) = true →
      (resolve_one_mcp_or_rest mcp_tool rest_path (pre ++ fm :: post) bridge base tok rest).restCalls
        ≠ []) := by
  have hb := bridgeAttempts_first_error bridge pre post fm e hpre he
  refine ⟨?_, ?_, ?_⟩
  · cases hcfg : (strTruthy base && strTruthy tok) with
    | false => simp [resolve_one_mcp_or_rest, hb, hcfg]
    | true =>
      rcases hR : restAttempts rest (pre ++ fm :: post) (some e) with ⟨⟨r1, le2⟩, rtr⟩
      cases r1 <;> cases le2 <;> simp [resolve_one_mcp_or_rest, hb, hcfg, hR]
  · intro hcfg
    simp [resolve_one_mcp_or_rest, hb, hcfg]
  · intro hcfg
    obtain ⟨f0, rest0, hsplit⟩ : ∃ f0 rest0, pre ++ fm :: post = f0 :: rest0 := by
      cases pre with
      | nil => exact ⟨fm, post, rfl⟩
      | cons f0 pre2 => exact ⟨f0, pre2 ++ fm :: post, rfl⟩
    rw [hsplit] at hb ⊢
    rcases restAttempts_trace_cons rest f0 rest0 (some e) with ⟨⟨r1, le2⟩, tr, hR⟩
    cases r1 <;> cases le2 <;> simp [resolve_one_mcp_or_rest, hb, hcfg, hR]

/-- C4 witness: bridge fails on the first of two filters; with REST
unconfigured the bridge trace stops at that filter and no REST call is
made. -/
theorem resolveOne_bridge_failure_shortcircuit_witness :
    (resolve_one_mcp_or_rest "netbox_get_sites" "/api/dcim/sites/"
        [PFilter.byName "fra", PFilter.bySlug "fra"]
        (fun _ => .error (.http 502 "MCP call failed: no such tool"))
        none none (fun _ => .ok ([] : List Entity))).bridgeCalls
      = [PFilter.byName "fra"] ∧
    (resolve_one_mcp_or_rest "netbox_get_sites" "/api/dcim/sites/"
        [PFilter.byName "fra", PFilter.bySlug "fra"]
        (fun _ => .error (.http 502 "MCP call failed: no such tool"))
        none none (fun _ => .ok ([] : List Entity))).restCalls
      = [] := by
  have h := resolveOne_bridge_failure_shortcircuit "netbox_get_sites" "/api/dcim/sites/"
    (fun _ => .error (.http 502 "MCP call failed: no such tool"))
    (fun _ => .ok ([] : List Entity)) none none
    [] [PFilter.bySlug "fra"] (PFilter.byName "fra") (.http 502 "MCP call failed: no such tool")
    (by simp) rfl
  exact ⟨h.1, h.2.1 rfl⟩

/-- C5 counterexample: a resolved device whose `device_type` object carries
slug `"md-9"`, name `"TypeNine"` and model `"MD9000"` — the summary exposes
the model, not the slug-or-name the claim describes. -/
theorem deviceSummary_device_type_is_model_not_slug :
    (deviceSummary ⟨7, some "cam-01", none, none,
        some ⟨some "md-9", some "TypeNine", some "MD9000"⟩⟩).device_type
      = some "MD9000" ∧
    specDeviceTypeSlugOrName ⟨7, some "cam-01", none, none,
        some ⟨some "md-9", some "TypeNine", some "MD9000"⟩⟩ = some "md-9" ∧
    (deviceSummary ⟨7, some "cam-01", none, none,
        some ⟨some "md-9", some "TypeNine", some "MD9000"⟩⟩).device_type
      ≠ specDeviceTypeSlugOrName ⟨7, some "cam-01", none, none,
        some ⟨some "md-9", some "TypeNine", some "MD9000"⟩⟩ := by
  refine ⟨rfl, rfl, ?_⟩
  decide

/-- C5 amended: the summary exposes the id, the name, and the
slug-preferring-name-fallback of site and role; for `device_type` it
exposes the `model` key of the device-type object (not its slug or
name). -/
theorem deviceSummary_fields (dev : DevObj) :
    (deviceSummary dev).id = dev.id ∧
    (deviceSummary dev).name = dev.name ∧
    (∀ r : NamedRef, dev.site = some r → strTruthy r.slug = true →
      (deviceSummary dev).site = r.slug) ∧
    (∀ r : NamedRef, dev.site = some r → strTruthy r.slug = false →
      (deviceSummary dev).site = r.name) ∧
    (∀ r : NamedRef, dev.role = some r → strTruthy r.slug = true →
      (deviceSummary dev).role = r.slug) ∧
    (∀ r : NamedRef, dev.role = some r → strTruthy r.slug = false →
      (deviceSummary dev).role = r.name) ∧
    (∀ t : DTypeRef, dev.device_type = some t →
      (deviceSummary dev).device_type = t.model) := by
  refine ⟨rfl, rfl, ?_, ?_, ?_, ?_, ?_⟩
  · intro r h hs; simp [deviceSummary, pyOrOpt, h, hs]
  · intro r h hs; simp [deviceSummary, pyOrOpt, h, hs]
  · intro r h hs; simp [deviceSummary, pyOrOpt, h, hs]
  · intro r h hs; simp [deviceSummary, pyOrOpt, h, hs]
  · intro t h; simp [deviceSummary, h]

/-- C5 witness: a concrete device: site has a slug (preferred), role has no
slug (name fallback), device type contributes its model. -/
theorem deviceSummary_fields_witness :
    (deviceSummary ⟨3, some "sw-1", some ⟨some "fra", some "Frankfurt"⟩,
        some ⟨none, some "Switch"⟩, some ⟨none, none, some "X-9000"⟩⟩).site = some "fra" ∧
    (deviceSummary ⟨3, some "sw-1", some ⟨some "fra", some "Frankfurt"⟩,
        some ⟨none, some "Switch"⟩, some ⟨none, none, some "X-9000"⟩⟩).role = some "Switch" ∧
    (deviceSummary ⟨3, some "sw-1", some ⟨some "fra", some "Frankfurt"⟩,
        some ⟨none, some "Switch"⟩, some ⟨none, none, some "X-9000"⟩⟩).device_type
      = some "X-9000" :=
  ⟨(deviceSummary_fields _).2.2.1 ⟨some "fra", some "Frankfurt"⟩ rfl (by decide),
   (deviceSummary_fields _).2.2.2.2.2.1 ⟨none, some "Switch"⟩ rfl rfl,
   (deviceSummary_fields _).2.2.2.2.2.2 ⟨none, none, some "X-9000"⟩ rfl⟩

/-- C9: an input missing one or more of the required fields name, site,
role, device_type yields a single 400 naming all missing fields at once,
and the result does not depend on the resolution environment — no network
call is involved in the failure; in particular an input with name, site and
role but no device_type yields exactly `Missing fields: device_type`. -/
theorem prepare_device_missing_fields (body : PrepareBody) (env env2 : ResolveEnv)
    (h : missingFields body ≠ []) :
    prepare_device body env =
      .error (.http 400 ("Missing fields: " ++ String.intercalate ", " (missingFields body))) ∧
    prepare_device body env = prepare_device body env2 ∧
    missingFields ⟨some "Cam-1", some "fra", some "camera", none,
        none, none, none, none, none, none⟩ = ["device_type"] ∧
    (∀ env3 : ResolveEnv, prepare_device ⟨some "Cam-1", some "fra", some "camera", none,
        none, none, none, none, none, none⟩ env3 =
      .error (.http 400 "Missing fields: device_type")) := by
  have hne : (missingFields body).isEmpty = false := by
    cases hm : missingFields body with
    | nil => exact absurd hm h
    | cons a l => rfl
  refine ⟨?_, ?_, rfl, ?_⟩
  · rw [prepare_device, hne]
    simp
  · rw [prepare_device, hne, prepare_device, hne]
    simp
  · intro env3
    rfl

/-- C9 witness: an all-empty body misses every required field; the theorem
applies with any two environments. -/
theorem prepare_device_missing_fields_witness :
    prepare_device ⟨none, none, none, none, none, none, none, none, none, none⟩
        ⟨fun _ _ => .ok [], none, none, fun _ _ => .ok []⟩ =
      .error (.http 400 "Missing fields: name, site, role, device_type") :=
  (prepare_device_missing_fields
    ⟨none, none, none, none, none, none, none, none, none, none⟩
    ⟨fun _ _ => .ok [], none, none, fun _ _ => .ok []⟩
    ⟨fun _ _ => .ok [], none, none, fun _ _ => .ok []⟩
    (by decide)).1

/-- C6 counterexample: a batch of three interfaces whose second item lacks
the `name` key — the per-item loop raises `KeyError` (the subscript sits
outside the try), so no `created`/`errors` partition of size 3 is produced
and the third item is never processed. -/
theorem perItemLoop_missing_key_aborts :
    perItemLoop (ifacePayload (some 7)) (fun _ => ⟨.ok (1 : Nat), .ok 1⟩)
        [⟨some "Eth 1", some "1000base-t", none⟩,
         ⟨none, some "1000base-t", none⟩,
         ⟨some "Eth 3", some "1000base-t", none⟩]
      = .error (.keyError "name") := rfl

/-- C6 amended: for every batch whose items all carry their required keys
(name and type; additionally rear_port_id for front ports), the per-item
loop returns a partition with `len(created) + len(errors) = N` — no item's
creation failure halts the loop; and whenever a create endpoint answers
with a per-item body, that body satisfies the same partition equation. -/
theorem perItemLoop_partition {γ : Type} :
    (∀ (device_id : Option Nat) (items : List IfaceItem)
        (channels : IfaceItem → ItemChannels γ),
      (∀ it ∈ items, it.name.isSome ∧ it.type.isSome) →
      ∃ cs es, perItemLoop (ifacePayload device_id) channels items = .ok (cs, es) ∧
        cs.length + es.length = items.length) ∧
    (∀ (device_id : Option Nat) (items : List RearItem)
        (channels : RearItem → ItemChannels γ),
      (∀ it ∈ items, it.name.isSome ∧ it.type.isSome) →
      ∃ cs es, perItemLoop (rearPayload device_id) channels items = .ok (cs, es) ∧
        cs.length + es.length = items.length) ∧
    (∀ (device_id : Option Nat) (items : List FrontItem)
        (channels : FrontItem → ItemChannels γ),
      (∀ it ∈ items, it.name.isSome ∧ it.type.isSome ∧ it.rear_port_id.isSome) →
      ∃ cs es, perItemLoop (frontPayload device_id) channels items = .ok (cs, es) ∧
        cs.length + es.length = items.length) ∧
    (∀ (body : BatchBody IfaceItem) (bulk : Except PyErr γ)
        (channels : IfaceItem → ItemChannels γ) (cs : List γ) (es : List (ErrEntry IfaceItem)),
      create_interfaces body bulk channels = .ok (.perItem cs es) →
      cs.length + es.length = (body.items.getD []).length) := by
  have hif : ∀ (device_id : Option Nat) (items : List IfaceItem)
      (channels : IfaceItem → ItemChannels γ),
      (∀ it ∈ items, it.name.isSome ∧ it.type.isSome) →
      ∃ cs es, perItemLoop (ifacePayload device_id) channels items = .ok (cs, es) ∧
        cs.length + es.length = items.length := by
    intro device_id items channels h
    apply perItemLoop_total
    intro it hit
    obtain ⟨hn, ht⟩ := h it hit
    rcases hnm : it.name with _ | nm
    · rw [hnm] at hn; simp at hn
    rcases hty : it.type with _ | ty
    · rw [hty] at ht; simp at ht
    exact ⟨_, by rw [ifacePayload, hnm, hty]⟩
  refine ⟨hif, ?_, ?_, ?_⟩
  · intro device_id items channels h
    apply perItemLoop_total
    intro it hit
    obtain ⟨hn, ht⟩ := h it hit
    rcases hnm : it.name with _ | nm
    · rw [hnm] at hn; simp at hn
    rcases hty : it.type with _ | ty
    · rw [hty] at ht; simp at ht
    exact ⟨_, by rw [rearPayload, hnm, hty]⟩
  · intro device_id items channels h
    apply perItemLoop_total
    intro it hit
    obtain ⟨hn, ht, hr⟩ := h it hit
    rcases hnm : it.name with _ | nm
    · rw [hnm] at hn; simp at hn
    rcases hty : it.type with _ | ty
    · rw [hty] at ht; simp at ht
    rcases hri : it.rear_port_id with _ | rid
    · rw [hri] at hr; simp at hr
    exact ⟨_, by rw [frontPayload, hnm, hty, hri]⟩
  · intro body bulk channels cs es hc
    exact perItemLoop_ok_length _ _ _ _ _ (create_interfaces_perItem_inv body bulk channels cs es hc)

/-- C6 witness: three well-formed interfaces, the second failing on both
channels — the loop yields two created and one error entry. -/
theorem perItemLoop_partition_witness :
    ∃ cs es, perItemLoop (ifacePayload (some 7))
        (fun it => if it.name = some "Eth 2"
          then ⟨.error (.http 502 "MCP call failed"), .error (.http 400 "invalid type")⟩
          else ⟨.ok (1 : Nat), .ok 1⟩)
        [⟨some "Eth 1", some "1000base-t", none⟩,
         ⟨some "Eth 2", some "bogus", none⟩,
         ⟨some "Eth 3", some "1000base-t", none⟩]
      = .ok (cs, es) ∧ cs.length + es.length = 3 :=
  (perItemLoop_partition.1 (some 7)
    [⟨some "Eth 1", some "1000base-t", none⟩,
     ⟨some "Eth 2", some "bogus", none⟩,
     ⟨some "Eth 3", some "1000base-t", none⟩]
    (fun it => if it.name = some "Eth 2"
      then ⟨.error (.http 502 "MCP call failed"), .error (.http 400 "invalid type")⟩
      else ⟨.ok (1 : Nat), .ok 1⟩)
    (by intro it hit; fin_cases hit <;> exact ⟨rfl, rfl⟩))

/-- C10: `create_front_ports` validates only that `front_ports[]` is
non-empty and never rejects for a missing `device_id`; when `device_id` is
falsy each built payload omits the `device` key, and when truthy it carries
it; `create_interfaces` and `create_rear_ports` reject a falsy `device_id`
with their 400 validation error even when the item list is non-empty. -/
theorem create_front_ports_no_device_id_required {γ : Type} :
    (∀ (device_id : Option Nat) (fps : List FrontItem) (bulk : Except PyErr γ)
        (channels : FrontItem → ItemChannels γ),
      fps ≠ [] →
      create_front_ports ⟨device_id, some fps⟩ bulk channels ≠
        .error (.http 400 "front_ports[] is required")) ∧
    (∀ (device_id : Option Nat) (fp : FrontItem) (p : FrontPayload),
      natTruthy device_id = false → frontPayload device_id fp = .ok p → p.device = none) ∧
    (∀ (device_id : Option Nat) (fp : FrontItem) (p : FrontPayload),
      natTruthy device_id = true → frontPayload device_id fp = .ok p → p.device = device_id) ∧
    (∀ (device_id : Option Nat) (its : List IfaceItem) (bulk : Except PyErr γ)
        (channels : IfaceItem → ItemChannels γ),
      natTruthy device_id = false → its ≠ [] →
      create_interfaces ⟨device_id, some its⟩ bulk channels =
        .error (.http 400 "device_id and interfaces[] are required")) ∧
    (∀ (device_id : Option Nat) (rps : List RearItem) (bulk : Except PyErr γ)
        (channels : RearItem → ItemChannels γ),
      natTruthy device_id = false → rps ≠ [] →
      create_rear_ports ⟨device_id, some rps⟩ bulk channels =
        .error (.http 400 "device_id and rear_ports[] are required")) := by
  refine ⟨?_, ?_, ?_, ?_, ?_⟩
  · intro device_id fps bulk channels hne
    unfold create_front_ports
    rw [if_neg (by simpa using hne)]
    cases bulk with
    | ok raw => simp
    | error e =>
      by_cases he : e.isHTTPException = true
      · cases hl : perItemLoop (frontPayload device_id) channels
            ((⟨device_id, some fps⟩ : BatchBody FrontItem).items.getD []) with
        | error e2 =>
          obtain ⟨it, _, hbx⟩ := perItemLoop_error_from_build _ channels _ e2 hl
          obtain ⟨k, hk⟩ := frontPayload_error_keyError device_id it e2 hbx
          subst hk
          simp [he, hl]
        | ok pr =>
          rcases pr with ⟨cs, es⟩
          by_cases hfail : (!es.isEmpty && cs.isEmpty) = true
          · simp [he, hl, hfail]
          · simp [he, hl, hfail]
      · cases e with
        | http st d => simp [PyErr.isHTTPException] at he
        | transport m => simp [he]
        | keyError k => simp [he]
  · intro device_id fp p hd hp
    unfold frontPayload at hp
    split at hp
    · simp at hp
    · split at hp
      · simp at hp
      · split at hp
        · simp at hp
        · simp only [Except.ok.injEq] at hp
          rw [← hp]
          simp [hd]
  · intro device_id fp p hd hp
    unfold frontPayload at hp
    split at hp
    · simp at hp
    · split at hp
      · simp at hp
      · split at hp
        · simp at hp
        · simp only [Except.ok.injEq] at hp
          rw [← hp]
          simp [hd]
  · intro device_id its bulk channels hd hne
    unfold create_interfaces
    rw [if_pos]
    simp [hd]
  · intro device_id rps bulk channels hd hne
    unfold create_rear_ports
    rw [if_pos]
    simp [hd]

/-- C10 witness: with no `device_id`, a one-item front-port batch passes
validation and builds a payload without the `device` key, while the same
shape is rejected by `create_interfaces` and `create_rear_ports`. -/
theorem create_front_ports_no_device_id_required_witness :
    create_front_ports (γ := Nat) ⟨none, some [⟨some "FP1", some "lc", some 9, none, none⟩]⟩
        (.error (.http 502 "MCP call failed")) (fun _ => ⟨.ok 1, .ok 1⟩) ≠
      .error (.http 400 "front_ports[] is required") ∧
    frontPayload none ⟨some "FP1", some "lc", some 9, none, none⟩ =
      .ok ⟨"FP1", "lc", 9, 1, none, none⟩ ∧
    create_interfaces (γ := Nat) ⟨none, some [⟨some "Eth 1", some "virtual", none⟩]⟩
        (.error (.http 502 "MCP call failed")) (fun _ => ⟨.ok 1, .ok 1⟩) =
      .error (.http 400 "device_id and interfaces[] are required") ∧
    create_rear_ports (γ := Nat) ⟨none, some [⟨some "RP1", some "lc", none, none⟩]⟩
        (.error (.http 502 "MCP call failed")) (fun _ => ⟨.ok 1, .ok 1⟩) =
      .error (.http 400 "device_id and rear_ports[] are required") :=
  ⟨create_front_ports_no_device_id_required.1 none [⟨some "FP1", some "lc", some 9, none, none⟩]
      (.error (.http 502 "MCP call failed")) (fun _ => ⟨.ok 1, .ok 1⟩) (by simp),
   rfl,
   create_front_ports_no_device_id_required.2.2.2.1 none [⟨some "Eth 1", some "virtual", none⟩]
      (.error (.http 502 "MCP call failed")) (fun _ => ⟨.ok 1, .ok 1⟩) rfl (by simp),
   create_front_ports_no_device_id_required.2.2.2.2 none [⟨some "RP1", some "lc", none, none⟩]
      (.error (.http 502 "MCP call failed")) (fun _ => ⟨.ok 1, .ok 1⟩) rfl (by simp)⟩

/-- C7: each field of the merged catalog holds no two entries whose values
collide case-insensitively, and the entry kept for a value (label included)
is built from the FIRST item carrying that value in query order (sources in
order, items in order within a source) — later duplicates are dropped even
when their labels differ.  The last three conjuncts pin the fields of
`_merge_choice_sources` to the per-field merge the first two conjuncts
describe. -/
theorem merge_choice_sources_dedup_first_wins (sources : List SourceDict) :
    (∀ get : SourceDict → Option (List RawItem),
      (mergeField sources get).Pairwise
        (fun a b => pyToLower a.value ≠ pyToLower b.value) ∧
      (∀ v : String, v ≠ "" →
        (mergeField sources get).find? (fun e => e.value == v) =
          ((sources.map (fun s => (get s).getD [])).flatten.find?
              (fun it => pyToLower (it.value.getD "") == v)).map
            (fun it => ⟨v, (pyOrOpt it.label (some v)).getD v⟩))) ∧
    (_merge_choice_sources sources).interface_types
      = mergeField sources (fun s => s.interface_types) ∧
    (_merge_choice_sources sources).rear_port_types
      = mergeField sources (fun s => s.rear_port_types) ∧
    (_merge_choice_sources sources).front_port_types
      = mergeField sources (fun s => s.front_port_types) := by
  refine ⟨?_, rfl, rfl, rfl⟩
  intro get
  have hinv := foldl_mergeStep_inv
    ((sources.map (fun s => (get s).getD [])).flatten) [] (by simp)
  constructor
  · have hnodup := foldl_mergeStep_nodup
      ((sources.map (fun s => (get s).getD [])).flatten) [] (by simp)
    unfold List.Nodup at hnodup
    rw [List.pairwise_map] at hnodup
    unfold mergeField
    rw [List.pairwise_map]
    refine List.Pairwise.imp_of_mem ?_ hnodup
    intro p q hp hq hne
    obtain ⟨hpv, hpl⟩ := hinv p hp
    obtain ⟨hqv, hql⟩ := hinv q hq
    rw [hpv, hqv, hpl, hql]
    exact hne
  · intro v hv
    unfold mergeField
    rw [find?_map_snd_of_inv _ v (fun p hp => (hinv p hp).1),
      foldl_mergeStep_find v hv, List.find?_nil, Option.none_or, Option.map_map]
    rfl

/-- C7 witness: the demo sources carry the rear-port value `lc` twice (as
`LC` with label `LC first`, then as `lc` with label `LC second`); the merge
keeps the entry built from the first occurrence, label included. -/
theorem merge_choice_sources_dedup_first_wins_witness :
    (mergeField c7DemoSources (fun s => s.rear_port_types)).find?
        (fun e => e.value == "lc") = some ⟨"lc", "LC first"⟩ := by
  have h := ((merge_choice_sources_dedup_first_wins c7DemoSources).1
    (fun s => s.rear_port_types)).2 "lc" (by decide)
  rw [h]
  decide

/-- C8 counterexample: when the bridge choices call raises a transport
error (the bridge endpoint unreachable — not an `HTTPException`), the
`except HTTPException: pass` wrapper around source 1 does not catch it and
`list_choices` fails instead of degrading to a catalog. -/
theorem list_choices_transport_error_propagates :
    list_choices (.error (.transport "bridge connection refused"))
        (.error (.http 502 "Direct NetBox fallback not configured (NETBOX_DIRECT_BASE / NETBOX_TOKEN)."))
        (.error (.http 502 "Direct NetBox fallback not configured (NETBOX_DIRECT_BASE / NETBOX_TOKEN)."))
        (.error (.http 502 "Direct NetBox fallback not configured (NETBOX_DIRECT_BASE / NETBOX_TOKEN)."))
        (.error (.http 502 "Direct NetBox fallback not configured (NETBOX_DIRECT_BASE / NETBOX_TOKEN)."))
      = .error (.transport "bridge connection refused") := rfl

/-- C8 amended: whenever the bridge choices call either succeeds or raises
an `HTTPException` (the only failure kind its wrapper catches),
`list_choices` returns a catalog; the returned catalog is never all-empty,
and when the merged catalog over the collected sources is all-empty the
fixed built-in default catalog is returned in its place.  A transport-level
bridge exception, however, propagates (see the counterexample). -/
theorem list_choices_degrades (s1 : Except PyErr (Option S1Payload))
    (s2 : Except PyErr RawChoices) (s3i s3r s3f : Except PyErr OptsResource)
    (h : (∃ r, s1 = .ok r) ∨ (∃ st d, s1 = .error (.http st d))) :
    ∃ cat, list_choices s1 s2 s3i s3r s3f = .ok cat ∧ cat.allEmpty = false ∧
      (∀ r, s1 = .ok r →
        ((_merge_choice_sources (bridgeChoicesSource r ++ restSources s2 s3i s3r s3f)).allEmpty
            = true → cat = _fallback_choices)) ∧
      (∀ st d, s1 = .error (.http st d) →
        ((_merge_choice_sources (restSources s2 s3i s3r s3f)).allEmpty = true →
          cat = _fallback_choices)) := by
  rcases h with ⟨r, rfl⟩ | ⟨st, d, rfl⟩
  · by_cases hA : (_merge_choice_sources
        (bridgeChoicesSource r ++ restSources s2 s3i s3r s3f)).allEmpty = true
    · refine ⟨_fallback_choices, ?_, by decide, ?_, ?_⟩
      · simp [list_choices, hA]
      · intro r1 hr1 _
        rfl
      · intro st d hcontra
        simp at hcontra
    · have hA2 : (_merge_choice_sources
          (bridgeChoicesSource r ++ restSources s2 s3i s3r s3f)).allEmpty = false := by
        simpa using hA
      refine ⟨_, ?_, hA2, ?_, ?_⟩
      · simp [list_choices, hA2]
      · intro r1 hr1 hAll
        have hrr : r1 = r := (Except.ok.inj hr1).symm
        rw [hrr] at hAll
        exact absurd hAll hA
      · intro st d hcontra
        simp at hcontra
  · by_cases hA : (_merge_choice_sources (restSources s2 s3i s3r s3f)).allEmpty = true
    · refine ⟨_fallback_choices, ?_, by decide, ?_, ?_⟩
      · simp [list_choices, PyErr.isHTTPException, hA]
      · intro r1 hr1
        simp at hr1
      · intro st1 d1 _ _
        rfl
    · have hA2 : (_merge_choice_sources (restSources s2 s3i s3r s3f)).allEmpty = false := by
        simpa using hA
      refine ⟨_, ?_, hA2, ?_, ?_⟩
      · simp [list_choices, PyErr.isHTTPException, hA2]
      · intro r1 hr1
        simp at hr1
      · intro st1 d1 _ hAll
        exact absurd hAll hA

/-- C8 witness: bridge reports an HTTP failure and REST is unconfigured —
every source is empty, so the default catalog is returned, and it is not
all-empty. -/
theorem list_choices_degrades_witness :
    list_choices (.error (.http 502 "MCP call failed: bridge down"))
        (.error (.http 502 "not configured")) (.error (.http 502 "not configured"))
        (.error (.http 502 "not configured")) (.error (.http 502 "not configured"))
      = .ok _fallback_choices ∧ _fallback_choices.allEmpty = false := by
  obtain ⟨cat, hcat, hne, _, hfb⟩ := list_choices_degrades
    (.error (.http 502 "MCP call failed: bridge down"))
    (.error (.http 502 "not configured")) (.error (.http 502 "not configured"))
    (.error (.http 502 "not configured")) (.error (.http 502 "not configured"))
    (.inr ⟨502, "MCP call failed: bridge down", rfl⟩)
  have hcfb := hfb 502 "MCP call failed: bridge down" rfl (by decide)
  rw [hcfb] at hcat hne
  exact ⟨hcat, hne⟩

end Netbox
